import Mathlib

/-!
Shallow embedding of the Genie chat widget (`script.js`) of the
F1RacingHistorySWA repository, together with theorems settling the
frozen claims about its specification.

The embedded part is the `GenieChat` class: input validation
(`handleSend`), the submit workflow (`sendMessage`), the polling state
machine (`pollForResult`), result normalization and rendering
(`displayResult`, `renderDataTable`, `escapeHtml`), persistence
(`saveState` / `loadState`), and the DOM insertion policy of
`addMessage`.

Modelling conventions:
* Untyped JS payload fields that may be `undefined` become `Option`.
* JS truthiness of strings is modelled by comparison with the empty
  string at each site where the source tests a string for truthiness.
* A thrown JS `Error` becomes `Except.error` carrying the message; the
  engine-generated `TypeError` messages are fixed strings here, since
  only which accesses throw matters, not the wording.
* Network traffic is abstracted by an oracle (`ApiOracle`) giving the
  result of each relay call; DOM side effects are recorded as events.
-/

set_option autoImplicit false
set_option maxRecDepth 8192

namespace Genie

/-- One cell of a Genie result row: JS value `string | number | null`. -/
inductive Cell where
  | str (s : String)
  | num (n : Int)
  | null
deriving DecidableEq, Repr

/-- One column of the result schema (`schema.columns[i]`). -/
structure ColumnJs where
  name : String
  type : String
deriving DecidableEq, Repr

/-- `queryResult.schema`; the `columns` field may itself be absent. -/
structure SchemaJs where
  columns : Option (List ColumnJs)
deriving DecidableEq, Repr

/-- `attachment.query.query_result` as used by `renderDataTable`. -/
structure QueryResultJs where
  data_array : Option (List (List Cell))
  schema : Option SchemaJs
  row_count : Option Nat
  truncated : Bool
deriving DecidableEq, Repr

/-- `attachment.query`: generated SQL text plus the execution result. -/
structure QueryBlock where
  query_result : Option QueryResultJs
  query : Option String
deriving DecidableEq, Repr

/-- `attachment.text`: the narrative block. -/
structure TextBlock where
  content : Option String
deriving DecidableEq, Repr

/-- One element of `result.attachments`. -/
structure Attachment where
  query : Option QueryBlock
  text : Option TextBlock
deriving DecidableEq, Repr

/-- The `result.error` field of a FAILED poll: absent/falsy, a string,
or an object; for the object case we keep the `.error` property and
what `JSON.stringify` would produce on it. -/
inductive ErrorField where
  | noField
  | str (s : String)
  | obj (errorProp : Option String) (stringified : String)
deriving DecidableEq, Repr

/-- The JSON payload returned by a `poll-result` call. -/
structure GenieResult where
  status : Option String
  error : ErrorField
  attachments : Option (List Attachment)
deriving DecidableEq, Repr

/-! ## escapeHtml (script.js lines 955-959)

The source sets `div.textContent = text` and reads back
`div.innerHTML`, which is exactly the replacement of the three markup
delimiters by their entities. -/

/-- Entity encoding of one character, as performed by
`textContent`/`innerHTML` round-tripping. -/
def escapeChar (c : Char) : List Char :=
  if c = '&' then String.toList "&amp;"
  else if c = '<' then String.toList "&lt;"
  else if c = '>' then String.toList "&gt;"
  else [c]

/-- `GenieChat.escapeHtml`. -/
def escapeHtml (text : String) : String :=
  String.mk (text.toList.flatMap escapeChar)

/-! ## Polling state machine (script.js lines 528-593) -/

/-- `const delays = [500, 1000, 2000, 5000]`. -/
def delays : List Nat := [500, 1000, 2000, 5000]

/-- `const maxAttempts = 30`. -/
def maxAttempts : Nat := 30

/-- `delays[Math.min(attempt, delays.length - 1)]`. -/
def pollDelay (attempt : Nat) : Nat :=
  delays.getD (min attempt (delays.length - 1)) 0

/-- Total delay waited before poll attempt `k` is issued: the sum of
the waits of attempts `0 .. k-1` (the source sleeps before every poll,
the first included). -/
def cumDelay (k : Nat) : Nat :=
  ((List.range k).map pollDelay).sum

/-- Message of the `attempt >= maxAttempts` throw. -/
def timeoutMsg : String :=
  "Query timeout - Genie took too long to respond. This might be a complex query."

/-- Error extraction of the FAILED branch (lines 564-574):
`result.error` falsy gives the default, an object with a truthy
`.error` property gives that property, a nonempty string gives itself,
anything else is stringified. -/
def extractError : ErrorField → String
  | ErrorField.noField => "Query failed"
  | ErrorField.str s => if s = "" then "Query failed" else s
  | ErrorField.obj p stringified =>
    match p with
    | some e => if e = "" then stringified else e
    | none => stringified

/-- Terminal result of one `pollForResult` run: either the COMPLETED
payload, or the message of the thrown error (timeout, FAILED, or a
network error propagated from `callAPI`). -/
inductive PollOutcome where
  | completed (r : GenieResult)
  | thrown (msg : String)
deriving DecidableEq, Repr

/-- Observable summary of a polling run: its outcome, the number of
`poll-result` requests issued, and the total milliseconds waited. -/
structure PollRun where
  outcome : PollOutcome
  polls : Nat
  waited : Nat
deriving DecidableEq, Repr

/-- Intermediate-status test of line 553. -/
def isIntermediate (st : Option String) : Bool :=
  st = some "EXECUTING" || st = some "FILTERING_CONTEXT" ||
    st = some "QUERY_RESULT_EXPIRED"

/-- `pollForResult` with the recursion depth made structural: `fuel`
is maintained equal to `maxAttempts - attempt`, so `fuel = 0` holds
exactly when the source's `attempt >= maxAttempts` guard fires and the
timeout is thrown.  `poll` gives the relay response of each attempt
(`Except.error` when `callAPI` throws). -/
def pollForResultFuel (poll : Nat → Except String GenieResult) :
    Nat → Nat → PollRun
  | _, 0 => ⟨PollOutcome.thrown timeoutMsg, 0, 0⟩
  | attempt, fuel + 1 =>
    let delay := pollDelay attempt
    match poll attempt with
    | Except.error e => ⟨PollOutcome.thrown e, 1, delay⟩
    | Except.ok r =>
      if isIntermediate r.status then
        let rest := pollForResultFuel poll (attempt + 1) fuel
        ⟨rest.outcome, rest.polls + 1, rest.waited + delay⟩
      else if r.status = some "COMPLETED" then
        ⟨PollOutcome.completed r, 1, delay⟩
      else if r.status = some "FAILED" then
        ⟨PollOutcome.thrown (extractError r.error), 1, delay⟩
      else
        let rest := pollForResultFuel poll (attempt + 1) fuel
        ⟨rest.outcome, rest.polls + 1, rest.waited + delay⟩

/-- `GenieChat.pollForResult(messageId, attempt)`; the `messageId` is
only forwarded inside the request body and is absorbed into the
oracle. -/
def pollForResult (poll : Nat → Except String GenieResult)
    (attempt : Nat) : PollRun :=
  pollForResultFuel poll attempt (maxAttempts - attempt)

/-- Relay response whose status is the intermediate `EXECUTING`. -/
def execResult : GenieResult :=
  { status := some "EXECUTING", error := ErrorField.noField,
    attachments := none }

/-! ## Result rendering (script.js lines 609-737)

`renderDataTable` and the table-building part of `displayResult`.  The
JS reads `schema.columns.length`, `schema.columns[colIndex].type`
without guarding, so a missing `schema`, a missing `columns` list, or
a row wider than the column list throws a `TypeError`; those throws
are `Except.error` here (the exact engine wording is irrelevant and
fixed). -/

def schemaUndefMsg : String :=
  "TypeError: cannot read properties of undefined (reading columns)"

def columnsUndefMsg : String :=
  "TypeError: cannot read properties of undefined (reading length)"

def colUndefMsg : String :=
  "TypeError: cannot read properties of undefined (reading type)"

/-- The empty-result markup of `renderDataTable`. -/
def noDataFoundHtml : String :=
  "<p style=\"color: var(--medium-gray); font-style: italic;\">No data found for this query.</p>"

/-- `cell === null ? 'NULL' : String(cell)`. -/
def cellDisplay : Cell → String
  | Cell.null => "NULL"
  | Cell.str s => s
  | Cell.num n => toString n

/-- The numeric-type membership test of line 720. -/
def numericTypes : List String :=
  ["LONG", "INT", "DOUBLE", "FLOAT", "DECIMAL"]

/-- One `<td>` of the body; `schema.columns[colIndex]` being out of
range makes the `.type` read throw. -/
def renderCell (cols : List ColumnJs) (idx : Nat) (cell : Cell) :
    Except String String :=
  match cols.get? idx with
  | none => Except.error colUndefMsg
  | some col =>
    let className := if numericTypes.contains col.type then "numeric" else ""
    Except.ok ("<td class=\"" ++ className ++ "\">" ++
      escapeHtml (cellDisplay cell) ++ "</td>")

/-- The inner `row.forEach((cell, colIndex) => ...)` loop, threading
the column index. -/
def renderRowCells (cols : List ColumnJs) : Nat → List Cell → Except String String
  | _, [] => Except.ok ""
  | idx, cell :: rest =>
    match renderCell cols idx cell with
    | Except.error e => Except.error e
    | Except.ok cellHtml =>
      match renderRowCells cols (idx + 1) rest with
      | Except.error e => Except.error e
      | Except.ok restHtml => Except.ok (cellHtml ++ restHtml)

/-- One `<tr>` of the body. -/
def renderRow (cols : List ColumnJs) (row : List Cell) :
    Except String String :=
  match renderRowCells cols 0 row with
  | Except.error e => Except.error e
  | Except.ok s => Except.ok ("<tr>" ++ s ++ "</tr>")

/-- The outer `data_array.forEach` loop. -/
def renderRows (cols : List ColumnJs) : List (List Cell) → Except String String
  | [] => Except.ok ""
  | row :: rest =>
    match renderRow cols row with
    | Except.error e => Except.error e
    | Except.ok rowHtml =>
      match renderRows cols rest with
      | Except.error e => Except.error e
      | Except.ok restHtml => Except.ok (rowHtml ++ restHtml)

/-- The truncation footer of lines 732-734; an absent `row_count`
interpolates as the string undefined. -/
def truncFooter (shown : Nat) (rowCount : Option Nat) : String :=
  "<p style=\"color: var(--gold); font-size: 0.85rem; margin-top: 5px;\">Showing first " ++
    toString shown ++ " of " ++
    (match rowCount with
     | some n => toString n
     | none => "undefined") ++ " rows</p>"

/-- `GenieChat.renderDataTable`. -/
def renderDataTable (queryResult : QueryResultJs) : Except String String :=
  match queryResult.data_array with
  | none => Except.ok noDataFoundHtml
  | some rows =>
    if rows.length = 0 then Except.ok noDataFoundHtml
    else
      match queryResult.schema with
      | none => Except.error schemaUndefMsg
      | some sch =>
        match sch.columns with
        | none => Except.error columnsUndefMsg
        | some cols =>
          let headerHtml :=
            String.join (cols.map (fun col =>
              "<th>" ++ escapeHtml col.name ++ "</th>"))
          match renderRows cols rows with
          | Except.error e => Except.error e
          | Except.ok bodyHtml =>
            let tableHtml :=
              "<div class=\"genie-table-wrapper\"><table class=\"genie-results-table\"><thead><tr>" ++
                headerHtml ++ "</tr></thead><tbody>" ++ bodyHtml ++
                "</tbody></table></div>"
            Except.ok (tableHtml ++
              (if queryResult.truncated then
                truncFooter rows.length queryResult.row_count
               else ""))

/-! ## displayResult (script.js lines 609-671)

The function mutates the UI only through `addMessage`; its observable
behaviour is the ordered list of assistant message contents it
appends.  All `addMessage` calls of `displayResult` happen after the
only statement that can throw (`renderDataTable`), so a throwing run
appends nothing. -/

def processedNoDataMsg : String :=
  "Genie processed your query but returned no data."

def noDataReturnedMsg : String :=
  "Query executed but no data was returned. Check browser console for details."

/-- The generated-SQL display unit of line 660. -/
def sqlCodeHtml (sql : String) : String :=
  "<div class=\"genie-sql-code\"><pre>" ++ escapeHtml sql ++ "</pre></div>"

/-- The table step of `displayResult`: the rendered table (as a
singleton) paired with the `hasData` flag, or the propagated throw. -/
def tabularStep (att : Attachment) : Except String (List String × Bool) :=
  match att.query with
  | none => Except.ok ([], false)
  | some qb =>
    match qb.query_result with
    | none => Except.ok ([], false)
    | some qr =>
      match qr.data_array with
      | none => Except.ok ([], false)
      | some rows =>
        if 0 < rows.length then
          match renderDataTable qr with
          | Except.error e => Except.error e
          | Except.ok tableHtml => Except.ok ([tableHtml], true)
        else Except.ok ([], false)

/-- The narrative step: `attachment.text && attachment.text.content`
(an empty string is falsy and shows nothing). -/
def narrativeStep (att : Attachment) : List String :=
  match att.text with
  | none => []
  | some tb =>
    match tb.content with
    | none => []
    | some c => if c = "" then [] else [c]

/-- The generated-SQL step: `attachment.query && attachment.query.query`. -/
def sqlStep (att : Attachment) : List String :=
  match att.query with
  | none => []
  | some qb =>
    match qb.query with
    | none => []
    | some sql => if sql = "" then [] else [sqlCodeHtml sql]

/-- `GenieChat.displayResult`: the ordered assistant message contents
it appends, or the message of the error it throws. -/
def displayMessages (result : GenieResult) : Except String (List String) :=
  match result.attachments with
  | none => Except.ok [processedNoDataMsg]
  | some [] => Except.ok [processedNoDataMsg]
  | some (att :: _) =>
    match tabularStep att with
    | Except.error e => Except.error e
    | Except.ok (tableMsgs, hasData) =>
      Except.ok (tableMsgs ++ narrativeStep att ++ sqlStep att ++
        (if hasData then [] else [noDataReturnedMsg]))

/-! ## addMessage DOM insertion (script.js lines 804-833)

`addMessage` inserts the content into the message `div` through
`innerHTML` when it contains a markup character, and through
`textContent` otherwise. -/

/-- How a content string reaches the DOM. -/
inductive DomInsert where
  | asHtml (s : String)
  | asText (s : String)
deriving DecidableEq, Repr

/-- The `content.includes('<')` dispatch of `addMessage`. -/
def addMessageInsert (content : String) : DomInsert :=
  if '<' ∈ content.toList then DomInsert.asHtml content
  else DomInsert.asText content

/-! ## Session state and persistence (script.js lines 336-343, 908-950) -/

/-- One stored message: `{ role, content, timestamp }`. -/
structure Turn where
  role : String
  content : String
  timestamp : Nat
deriving DecidableEq, Repr

/-- The document written under the `GENIE_CHAT_STATE` storage key. -/
structure SavedState where
  conversationId : Option String
  messages : List Turn
deriving DecidableEq, Repr

/-- The mutable fields of the `GenieChat` object that the chat
workflow touches, plus the localStorage slot (`storage`) and the text
of the input element (`inputValue`). -/
structure ChatState where
  conversationId : Option String
  messages : List Turn
  isLoading : Bool
  lastQuery : Option String
  inputValue : String
  storage : Option SavedState
deriving DecidableEq, Repr

/-- The constructor state of `GenieChat` before `loadState` runs, over
a given storage content. -/
def freshState (storage : Option SavedState) : ChatState :=
  { conversationId := none, messages := [], isLoading := false,
    lastQuery := none, inputValue := "", storage := storage }

/-- `GenieChat.saveState`: writes `conversationId` and
`messages.slice(-20)` as one document. -/
def saveState (st : ChatState) : ChatState :=
  { st with
      storage :=
        some ⟨st.conversationId, st.messages.drop (st.messages.length - 20)⟩ }

/-- `GenieChat.loadState`: a missing (or, in the source, unparsable)
document leaves the state untouched. -/
def loadState (st : ChatState) : ChatState :=
  match st.storage with
  | none => st
  | some saved =>
    { st with conversationId := saved.conversationId,
              messages := saved.messages }

/-- `GenieChat.addMessage`: push the turn, then `saveState`.  (The DOM
insertion side of `addMessage` is `addMessageInsert` above.) -/
def addMessage (st : ChatState) (role content : String) (now : Nat) :
    ChatState :=
  saveState { st with messages := st.messages ++ [⟨role, content, now⟩] }

/-- Folding `addMessage` over the assistant contents that
`displayResult` emits. -/
def appendAssistants (st : ChatState) (contents : List String) (now : Nat) :
    ChatState :=
  contents.foldl (fun acc c => addMessage acc "assistant" c now) st

/-! ## The submit workflow (script.js lines 422-510)

DOM and network activity is recorded as an ordered event trace; the
relay is an oracle giving each call its result. -/

/-- Observable actions of one `handleSend`/`sendMessage` run. -/
inductive Event where
  | appendUser (content : String)
  | appendAssistant (content : String)
  | persist
  | netCall (action : String)
  | showErrorEv (msg : String)
  | alertEv (msg : String)
deriving DecidableEq, Repr

/-- The events of the `addMessage` calls of `displayResult`. -/
def assistantEvents (contents : List String) : List Event :=
  contents.flatMap (fun c => [Event.appendAssistant c, Event.persist])

/-- `messageData` of the `send-message` call. -/
structure SendData where
  id : Option String
  status : Option String
deriving DecidableEq, Repr

/-- Relay oracle: the outcome of the `start-conversation` call, of the
`send-message` call, and of the `poll-result` call of each attempt.
`Except.error` is a `callAPI` throw (HTTP failure, non-JSON body,
`success:false` envelope). -/
structure ApiOracle where
  start : Except String String
  send : Except String SendData
  poll : Nat → Except String GenieResult

/-- Steps 3-6 of `sendMessage`: send the message, poll, display.  The
third component is the message of the error that reached the `catch`
block, when one did. -/
def sendStep (st : ChatState) (api : ApiOracle) (now : Nat)
    (evs : List Event) : ChatState × List Event × Option String :=
  match api.send with
  | Except.error e => (st, evs ++ [Event.netCall "send-message"], some e)
  | Except.ok _ =>
    let run := pollForResult api.poll 0
    let evs := evs ++ [Event.netCall "send-message"] ++
      List.replicate run.polls (Event.netCall "poll-result")
    match run.outcome with
    | PollOutcome.thrown e => (st, evs, some e)
    | PollOutcome.completed r =>
      match displayMessages r with
      | Except.error e => (st, evs, some e)
      | Except.ok contents =>
        (appendAssistants st contents now, evs ++ assistantEvents contents,
          none)

/-- The `try` block of `sendMessage`: append the user turn, lazily
start the conversation, then `sendStep`. -/
def sendMessageTry (st : ChatState) (content : String) (api : ApiOracle)
    (now : Nat) : ChatState × List Event × Option String :=
  let st := addMessage st "user" content now
  let evs := [Event.appendUser content, Event.persist]
  match st.conversationId with
  | some _ => sendStep st api now evs
  | none =>
    match api.start with
    | Except.error e =>
      (st, evs ++ [Event.netCall "start-conversation"], some e)
    | Except.ok cid =>
      sendStep (saveState { st with conversationId := some cid }) api now
        (evs ++ [Event.netCall "start-conversation", Event.persist])

/-- `GenieChat.sendMessage`: the `try`/`catch`/`finally` wrapper.  The
`catch` renders one error notice (`showError`); the `finally` always
clears `isLoading`. -/
def sendMessage (st : ChatState) (content : String) (api : ApiOracle)
    (now : Nat) : ChatState × List Event :=
  let r := sendMessageTry { st with isLoading := true } content api now
  match r.2.2 with
  | none => ({ r.1 with isLoading := false }, r.2.1)
  | some e =>
    ({ r.1 with isLoading := false }, r.2.1 ++ [Event.showErrorEv e])

def tooShortMsg : String := "Please enter at least 5 characters"

def tooLongMsg : String := "Message is too long (max 1000 characters)"

/-- The whitespace test of JS `String.prototype.trim` (restricted to
the whitespace characters that can occur in a text input). -/
def isWs (c : Char) : Bool :=
  c = ' ' || c = '\t' || c = '\n' || c = '\r'

/-- JS `text.trim()`: strip whitespace from both ends. -/
def jsTrim (s : String) : String :=
  String.mk (((s.toList.dropWhile isWs).reverse.dropWhile isWs).reverse)

/-- `GenieChat.handleSend`: validate the trimmed input, reject when a
query is already in flight, otherwise clear the input, remember the
query and run `sendMessage`. -/
def handleSend (st : ChatState) (api : ApiOracle) (now : Nat) :
    ChatState × List Event :=
  let text := jsTrim st.inputValue
  if text.length < 5 then (st, [Event.alertEv tooShortMsg])
  else if 1000 < text.length then (st, [Event.alertEv tooLongMsg])
  else if st.isLoading then (st, [])
  else
    sendMessage { st with inputValue := "", lastQuery := some text } text
      api now

/-- The `appendUser` events of a trace. -/
def countUser (evs : List Event) : Nat :=
  (evs.filter (fun e =>
    match e with
    | Event.appendUser _ => true
    | _ => false)).length

/-- The network requests of a trace. -/
def netCalls (evs : List Event) : List Event :=
  evs.filter (fun e =>
    match e with
    | Event.netCall _ => true
    | _ => false)

/-! ## Helper lemmas -/

instance exceptDecEq {ε α : Type} [DecidableEq ε] [DecidableEq α] :
    DecidableEq (Except ε α) := fun x y =>
  match x, y with
  | Except.ok a, Except.ok b =>
    if h : a = b then isTrue (by rw [h])
    else isFalse (by intro he; injection he with h2; exact h h2)
  | Except.error a, Except.error b =>
    if h : a = b then isTrue (by rw [h])
    else isFalse (by intro he; injection he with h2; exact h h2)
  | Except.ok _, Except.error _ => isFalse (fun he => Except.noConfusion he)
  | Except.error _, Except.ok _ => isFalse (fun he => Except.noConfusion he)

theorem cumDelay_succ (k : Nat) :
    cumDelay (k + 1) = cumDelay k + pollDelay k := by
  simp [cumDelay, List.range_succ]

theorem pollDelay_of_ge {k : Nat} (hk : 3 ≤ k) : pollDelay k = 5000 := by
  simp [pollDelay, delays, Nat.min_eq_right hk]

theorem escapeChar_no_lt (a : Char) : '<' ∉ escapeChar a := by
  unfold escapeChar
  split_ifs with h1 h2 h3 <;> intro hm
  · revert hm; decide
  · revert hm; decide
  · revert hm; decide
  · rw [List.mem_singleton] at hm
    exact h2 hm.symm

theorem escapeChar_no_gt (a : Char) : '>' ∉ escapeChar a := by
  unfold escapeChar
  split_ifs with h1 h2 h3 <;> intro hm
  · revert hm; decide
  · revert hm; decide
  · revert hm; decide
  · rw [List.mem_singleton] at hm
    exact h3 hm.symm

/-- Escaped output carries no raw markup delimiter: `<` never appears. -/
theorem escapeHtml_no_lt (s : String) : '<' ∉ (escapeHtml s).toList := by
  intro h
  rw [show (escapeHtml s).toList = s.toList.flatMap escapeChar from rfl] at h
  rcases List.mem_flatMap.mp h with ⟨a, _, ha⟩
  exact escapeChar_no_lt a ha

/-- Escaped output carries no raw markup delimiter: `>` never appears. -/
theorem escapeHtml_no_gt (s : String) : '>' ∉ (escapeHtml s).toList := by
  intro h
  rw [show (escapeHtml s).toList = s.toList.flatMap escapeChar from rfl] at h
  rcases List.mem_flatMap.mp h with ⟨a, _, ha⟩
  exact escapeChar_no_gt a ha

/-- The run issues at most `fuel` poll requests. -/
theorem pollForResultFuel_polls_le (poll : Nat → Except String GenieResult) :
    ∀ fuel attempt, (pollForResultFuel poll attempt fuel).polls ≤ fuel := by
  intro fuel
  induction fuel with
  | zero => intro attempt; simp [pollForResultFuel]
  | succ n ih =>
    intro attempt
    simp only [pollForResultFuel]
    cases poll attempt with
    | error e => simp
    | ok r =>
      dsimp only
      split_ifs <;> simp <;> exact ih (attempt + 1)

/-! ## Claim C1 — backoff schedule -/

/-- C1 counterexample: the per-attempt waits are 500/1000/2000 ms, so
the delay accumulated before attempt 3 is 3500 ms, not the
`1500 + 5000*(3-3) = 1500` ms the claim states. -/
theorem c1_cumulative_formula_cx :
    cumDelay 3 = 3500 ∧ cumDelay 3 ≠ 1500 + 5000 * (3 - 3) := by
  decide

/-- C1 (amended): attempts 0,1,2 wait 500/1000/2000 ms, every attempt
from 3 on waits exactly 5000 ms, and the cumulative waited delay
before attempt `k` (for `k ≥ 3`) is `3500 + 5000*(k-3)` ms; a full
never-terminating run of the polling state machine waits exactly
`cumDelay maxAttempts` in total. -/
theorem c1_backoff_schedule_amended (k : Nat) (hk : 3 ≤ k) :
    pollDelay 0 = 500 ∧ pollDelay 1 = 1000 ∧ pollDelay 2 = 2000 ∧
    pollDelay k = 5000 ∧ cumDelay k = 3500 + 5000 * (k - 3) ∧
    (pollForResult (fun _ => Except.ok execResult) 0).waited =
      cumDelay maxAttempts := by
  refine ⟨by decide, by decide, by decide, pollDelay_of_ge hk, ?_, by decide⟩
  induction k, hk using Nat.le_induction with
  | base => decide
  | succ n hn ih =>
    rw [cumDelay_succ, ih, pollDelay_of_ge hn]
    omega

/-- C1 witness at k = 7. -/
theorem c1_backoff_schedule_amended_witness :
    3 ≤ 7 ∧
    (pollDelay 0 = 500 ∧ pollDelay 1 = 1000 ∧ pollDelay 2 = 2000 ∧
     pollDelay 7 = 5000 ∧ cumDelay 7 = 3500 + 5000 * (7 - 3) ∧
     (pollForResult (fun _ => Except.ok execResult) 0).waited =
       cumDelay maxAttempts) :=
  ⟨by decide, c1_backoff_schedule_amended 7 (by decide)⟩

/-! ## Claim C2 — attempt bound and wall-clock budget -/

/-- C2: the polling loop issues at most 30 requests, and a run in
which no poll ever returns a terminal status stops after exactly 30
polls with the timeout throw and the in-flight flag cleared — but the
total waited delay of that run is 138500 ms, far above the claimed
hard 60-second budget (the code comment `~60 seconds total`
miscomputes its own schedule). -/
theorem c2_poll_budget_code_bug :
    (∀ poll attempt, (pollForResult poll attempt).polls ≤ maxAttempts) ∧
    pollForResult (fun _ => Except.ok execResult) 0 =
      ⟨PollOutcome.thrown timeoutMsg, 30, 138500⟩ ∧
    60000 < (pollForResult (fun _ => Except.ok execResult) 0).waited ∧
    (∀ st content api now,
      (sendMessage st content api now).1.isLoading = false) := by
  refine ⟨?_, by decide, by decide, ?_⟩
  · intro poll attempt
    exact le_trans (pollForResultFuel_polls_le poll _ attempt)
      (Nat.sub_le _ _)
  · intro st content api now
    cases hr : sendMessageTry { st with isLoading := true } content api now
      with
    | mk st1 rest =>
      cases rest with
      | mk evs err => cases err <;> simp [sendMessage, hr]

/-! ## Claim C7 — persistence round trip -/

/-- C7: saving a session and loading it back into a fresh widget
reproduces the same `conversationId` and the same ordered history,
truncated to the most recent 20 turns. -/
theorem c7_session_roundtrip (st : ChatState) :
    (loadState (freshState (saveState st).storage)).conversationId =
      st.conversationId ∧
    (loadState (freshState (saveState st).storage)).messages =
      st.messages.drop (st.messages.length - 20) := by
  simp [saveState, loadState, freshState]

/-! ## Claim C8 — NULL marker and cell escaping -/

/-- A table whose single row holds a null cell and a script-bearing
cell. -/
def qr8 : QueryResultJs :=
  { data_array := some [[Cell.null, Cell.str "<script>alert(1)</script>"]],
    schema := some ⟨some [⟨"note", "STRING"⟩, ⟨"payload", "STRING"⟩]⟩,
    row_count := some 1, truncated := false }

/-- C8: the null cell renders as the literal `NULL` marker (which is
not the empty string), and the script-bearing cell renders with its
markup delimiters entity-escaped, so no `<` of the cell value survives
into the emitted markup. -/
theorem c8_null_and_escape_render :
    renderDataTable qr8 = Except.ok
      ("<div class=\"genie-table-wrapper\"><table class=\"genie-results-table\"><thead><tr><th>note</th><th>payload</th></tr></thead><tbody><tr><td class=\"\">NULL</td><td class=\"\">&lt;script&gt;alert(1)&lt;/script&gt;</td></tr></tbody></table></div>") ∧
    cellDisplay Cell.null = "NULL" ∧ "NULL" ≠ "" ∧
    escapeHtml (cellDisplay (Cell.str "<script>alert(1)</script>")) =
      "&lt;script&gt;alert(1)&lt;/script&gt;" ∧
    '<' ∉ (escapeHtml (cellDisplay (Cell.str "<script>alert(1)</script>"))).toList := by
  refine ⟨by decide, by decide, by decide, by decide, ?_⟩
  exact escapeHtml_no_lt _

/-! ## Claim C5 — busy submissions are rejected -/

/-- C5: a second `handleSend` while a query is in flight leaves the
state (history, flags, storage) exactly as it was, appends no user
turn, and issues no network request. -/
theorem c5_busy_rejected (st : ChatState) (api : ApiOracle) (now : Nat)
    (h : st.isLoading = true) :
    (handleSend st api now).1 = st ∧
    countUser (handleSend st api now).2 = 0 ∧
    netCalls (handleSend st api now).2 = [] := by
  simp only [handleSend, h]
  split_ifs with h1 h2 <;> exact ⟨rfl, rfl, rfl⟩

/-- A relay oracle on which every call fails. -/
def stubApi : ApiOracle :=
  { start := Except.error "network", send := Except.error "network",
    poll := fun _ => Except.error "network" }

/-- A widget state with a query in flight and valid input pending. -/
def busyState : ChatState :=
  { freshState none with isLoading := true, inputValue := "hello there" }

/-- C5 witness at a concrete busy state. -/
theorem c5_busy_rejected_witness :
    busyState.isLoading = true ∧
    ((handleSend busyState stubApi 0).1 = busyState ∧
     countUser (handleSend busyState stubApi 0).2 = 0 ∧
     netCalls (handleSend busyState stubApi 0).2 = []) :=
  ⟨rfl, c5_busy_rejected busyState stubApi 0 rfl⟩

/-! ## Claim C6 — invalid input never reaches the network -/

/-- C6: input whose trimmed length is below 5 or above 1000 produces
no network call, leaves the state untouched, and resolves synchronously
in the corresponding validation alert. -/
theorem c6_invalid_input_no_network (st : ChatState) (api : ApiOracle)
    (now : Nat)
    (h : (jsTrim st.inputValue).length < 5 ∨
      1000 < (jsTrim st.inputValue).length) :
    netCalls (handleSend st api now).2 = [] ∧
    (handleSend st api now).1 = st ∧
    ((handleSend st api now).2 = [Event.alertEv tooShortMsg] ∨
     (handleSend st api now).2 = [Event.alertEv tooLongMsg]) := by
  rcases h with h | h <;> simp only [handleSend] <;>
    split_ifs with h1 h2 <;>
      first
        | exact ⟨rfl, rfl, Or.inl rfl⟩
        | exact ⟨rfl, rfl, Or.inr rfl⟩
        | omega

/-- A widget state whose pending input trims to 2 characters. -/
def shortState : ChatState := { freshState none with inputValue := "hi " }

/-- C6 witness at a concrete too-short input. -/
theorem c6_invalid_input_no_network_witness :
    ((jsTrim shortState.inputValue).length < 5 ∨
      1000 < (jsTrim shortState.inputValue).length) ∧
    (netCalls (handleSend shortState stubApi 0).2 = [] ∧
     (handleSend shortState stubApi 0).1 = shortState ∧
     ((handleSend shortState stubApi 0).2 = [Event.alertEv tooShortMsg] ∨
      (handleSend shortState stubApi 0).2 = [Event.alertEv tooLongMsg])) :=
  ⟨Or.inl (by decide),
   c6_invalid_input_no_network shortState stubApi 0 (Or.inl (by decide))⟩

/-! ## Claims C3 and C9 — narrative display -/

/-- A COMPLETED poll payload whose single attachment has narrative
text and no query block. -/
def narrOnly (narr : String) : GenieResult :=
  { status := some "COMPLETED", error := ErrorField.noField,
    attachments := some [⟨none, some ⟨some narr⟩⟩] }

/-- A narrative payload carrying remote markup. -/
def narr3 : String := "<script>steal()</script>"

/-- C3 counterexample: the narrative text of a completed result is
emitted verbatim — not escaped — and, containing `<`, is inserted into
the message element through `innerHTML`, so remote markup reaches the
rendering context unescaped. -/
theorem c3_narrative_unescaped_cx :
    displayMessages (narrOnly narr3) =
      Except.ok [narr3, noDataReturnedMsg] ∧
    addMessageInsert narr3 = DomInsert.asHtml narr3 ∧
    escapeHtml narr3 ≠ narr3 := by
  refine ⟨by decide, by decide, by decide⟩

/-- C3 (amended): values passed through `escapeHtml` — column names,
cell values and generated SQL — cannot carry raw markup delimiters
into the output, but narrative text is emitted without escaping and,
when it contains `<`, is inserted as raw HTML. -/
theorem c3_escaping_amended (s narr : String) (hn : narr ≠ "")
    (hlt : '<' ∈ narr.toList) :
    ('<' ∉ (escapeHtml s).toList ∧ '>' ∉ (escapeHtml s).toList) ∧
    displayMessages (narrOnly narr) =
      Except.ok [narr, noDataReturnedMsg] ∧
    addMessageInsert narr = DomInsert.asHtml narr := by
  refine ⟨⟨escapeHtml_no_lt s, escapeHtml_no_gt s⟩, ?_, ?_⟩
  · simp [displayMessages, narrOnly, tabularStep, narrativeStep, sqlStep, hn]
  · unfold addMessageInsert
    rw [if_pos hlt]

/-- A sample narrative containing markup. -/
def narrW : String := "see <b>bold</b>"

/-- C3 witness at concrete strings. -/
theorem c3_escaping_amended_witness :
    (narrW ≠ "" ∧ '<' ∈ narrW.toList) ∧
    (('<' ∉ (escapeHtml "a<b&c").toList ∧
      '>' ∉ (escapeHtml "a<b&c").toList) ∧
     displayMessages (narrOnly narrW) =
       Except.ok [narrW, noDataReturnedMsg] ∧
     addMessageInsert narrW = DomInsert.asHtml narrW) :=
  ⟨⟨by decide, by decide⟩,
   c3_escaping_amended "a<b&c" narrW (by decide) (by decide)⟩

/-- A poll run that completes immediately, in one attempt. -/
theorem pollForResult_completed (poll : Nat → Except String GenieResult)
    (r : GenieResult) (hp : poll 0 = Except.ok r)
    (hs : r.status = some "COMPLETED") :
    pollForResult poll 0 = ⟨PollOutcome.completed r, 1, 500⟩ := by
  show pollForResultFuel poll 0 (29 + 1) = _
  simp [pollForResultFuel, hp, hs, isIntermediate, pollDelay, delays]

/-- The narrative payload of the C9 counterexample. -/
def narr9 : String := "hello <b>world</b>"

/-- Relay oracle that starts a conversation, accepts the message, and
completes with a narrative-only attachment on the first poll. -/
def narrApi (narr : String) : ApiOracle :=
  { start := Except.ok "c1", send := Except.ok ⟨some "m1", some "EXECUTING"⟩,
    poll := fun _ => Except.ok (narrOnly narr) }

/-- C9 counterexample: a full submit run whose poll completes with a
narrative-only attachment appends TWO assistant turns — the raw
narrative and the no-data notice — not exactly one escaped narrative
turn. -/
theorem c9_narrative_two_turns_cx :
    ((sendMessage (freshState none) "Tell me a story" (narrApi narr9)
        0).1.messages.map Turn.content) =
      ["Tell me a story", narr9, noDataReturnedMsg] ∧
    ((sendMessage (freshState none) "Tell me a story" (narrApi narr9)
        0).1.messages.filter (fun t => t.role == "assistant")).length = 2 ∧
    escapeHtml narr9 ≠ narr9 := by
  refine ⟨by decide, by decide, by decide⟩

/-- The question text of the C9 amended run. -/
def q9 : String := "What about Senna"

/-- C9 (amended): a COMPLETED poll with narrative text and no tabular
block makes `displayResult` append exactly two assistant turns: the
first containing the narrative verbatim (unescaped), the second the
no-data notice. -/
theorem c9_narrative_amended (narr : String) (hn : narr ≠ "") :
    displayMessages (narrOnly narr) =
      Except.ok [narr, noDataReturnedMsg] ∧
    ((sendMessage (freshState none) q9 (narrApi narr) 0).1.messages.map
        Turn.content) = [q9, narr, noDataReturnedMsg] := by
  constructor
  · simp [displayMessages, narrOnly, tabularStep, narrativeStep, sqlStep, hn]
  · have hp : pollForResult (fun _ => Except.ok (narrOnly narr)) 0 =
        ⟨PollOutcome.completed (narrOnly narr), 1, 500⟩ :=
      pollForResult_completed _ _ rfl rfl
    simp only [sendMessage, sendMessageTry, sendStep, narrApi, freshState,
      addMessage, saveState]
    rw [hp]
    simp [displayMessages, narrOnly, tabularStep, narrativeStep, sqlStep, hn,
      appendAssistants, addMessage, saveState, assistantEvents]

/-- C9 witness at a concrete narrative. -/
theorem c9_narrative_amended_witness :
    "The 1988 season" ≠ "" ∧
    (displayMessages (narrOnly "The 1988 season") =
       Except.ok ["The 1988 season", noDataReturnedMsg] ∧
     ((sendMessage (freshState none) q9 (narrApi "The 1988 season")
         0).1.messages.map Turn.content) =
       [q9, "The 1988 season", noDataReturnedMsg]) :=
  ⟨by decide, c9_narrative_amended "The 1988 season" (by decide)⟩

/-! ## Claim C4 — the user turn precedes all network activity -/

theorem addMessage_messages (st : ChatState) (role content : String)
    (now : Nat) :
    (addMessage st role content now).messages =
      st.messages ++ [⟨role, content, now⟩] := rfl

theorem addMessage_conversationId (st : ChatState) (role content : String)
    (now : Nat) :
    (addMessage st role content now).conversationId = st.conversationId :=
  rfl

theorem appendAssistants_mem (t : Turn) (contents : List String) (now : Nat) :
    ∀ st : ChatState, t ∈ st.messages →
      t ∈ (appendAssistants st contents now).messages := by
  induction contents with
  | nil => intro st h; exact h
  | cons c cs ih =>
    intro st h
    simp only [appendAssistants, List.foldl_cons] at *
    exact ih _ (by rw [addMessage_messages]; exact List.mem_append_left _ h)

theorem countUser_append (a b : List Event) :
    countUser (a ++ b) = countUser a + countUser b := by
  simp [countUser, List.filter_append]

theorem countUser_assistantEvents (contents : List String) :
    countUser (assistantEvents contents) = 0 := by
  induction contents with
  | nil => decide
  | cons c cs ih =>
    simp only [assistantEvents, List.flatMap_cons] at *
    rw [countUser_append, ih]
    simp [countUser]

theorem countUser_replicate (n : Nat) :
    countUser (List.replicate n (Event.netCall "poll-result")) = 0 := by
  induction n with
  | zero => decide
  | succ m ih =>
    rw [List.replicate_succ, show ∀ l, Event.netCall "poll-result" :: l =
      [Event.netCall "poll-result"] ++ l from fun _ => rfl,
      countUser_append, ih]
    decide

/-- `sendStep` only extends the given trace with non-user events and
only appends to history. -/
theorem sendStep_spec (st : ChatState) (api : ApiOracle) (now : Nat)
    (evs : List Event) (t : Turn) (ht : t ∈ st.messages) :
    (∃ rest, (sendStep st api now evs).2.1 = evs ++ rest ∧
      countUser rest = 0) ∧
    t ∈ (sendStep st api now evs).1.messages := by
  unfold sendStep
  cases api.send with
  | error e => exact ⟨⟨[Event.netCall "send-message"], rfl, by decide⟩, ht⟩
  | ok sd =>
    dsimp only
    cases houtcome : (pollForResult api.poll 0).outcome with
    | thrown e =>
      dsimp only
      refine ⟨⟨[Event.netCall "send-message"] ++
        List.replicate (pollForResult api.poll 0).polls
          (Event.netCall "poll-result"), by simp, ?_⟩, ht⟩
      rw [countUser_append, countUser_replicate]
      decide
    | completed r =>
      dsimp only
      cases hdm : displayMessages r with
      | error e =>
        dsimp only
        refine ⟨⟨[Event.netCall "send-message"] ++
          List.replicate (pollForResult api.poll 0).polls
            (Event.netCall "poll-result"), by simp, ?_⟩, ht⟩
        rw [countUser_append, countUser_replicate]
        decide
      | ok contents =>
        dsimp only
        refine ⟨⟨[Event.netCall "send-message"] ++
          List.replicate (pollForResult api.poll 0).polls
            (Event.netCall "poll-result") ++ assistantEvents contents,
          by simp, ?_⟩, appendAssistants_mem t contents now st ht⟩
        rw [countUser_append, countUser_append, countUser_replicate,
          countUser_assistantEvents]
        decide

/-- The `try` block: the trace opens with the user append and its
persist, nothing later appends a user turn, and the user turn is in
the resulting history. -/
theorem sendMessageTry_spec (st : ChatState) (content : String)
    (api : ApiOracle) (now : Nat) :
    (∃ rest, (sendMessageTry st content api now).2.1 =
        [Event.appendUser content, Event.persist] ++ rest ∧
      countUser rest = 0) ∧
    (⟨"user", content, now⟩ : Turn) ∈
      (sendMessageTry st content api now).1.messages := by
  have hmem : (⟨"user", content, now⟩ : Turn) ∈
      (addMessage st "user" content now).messages := by
    rw [addMessage_messages]
    exact List.mem_append_right _ (List.mem_singleton.mpr rfl)
  simp only [sendMessageTry]
  rw [addMessage_conversationId]
  cases st.conversationId with
  | some cid => exact sendStep_spec _ api now _ _ hmem
  | none =>
    dsimp only
    cases api.start with
    | error e =>
      exact ⟨⟨[Event.netCall "start-conversation"], rfl, by decide⟩, hmem⟩
    | ok cid =>
      obtain ⟨⟨rest, htr, hcu⟩, hm⟩ :=
        sendStep_spec
          (saveState
            { addMessage st "user" content now with
                conversationId := some cid })
          api now
          ([Event.appendUser content, Event.persist] ++
            [Event.netCall "start-conversation", Event.persist])
          ⟨"user", content, now⟩ hmem
      refine ⟨⟨[Event.netCall "start-conversation", Event.persist] ++ rest,
        ?_, ?_⟩, hm⟩
      · rw [htr, List.append_assoc]
      · rw [countUser_append, hcu]
        decide

/-- C4: every `sendMessage` run (over any relay behaviour) opens its
trace with exactly one user-turn append followed immediately by a
persist — so every network call comes later — and the user turn is in
the final history whatever happens afterwards. -/
theorem c4_user_turn_first (st : ChatState) (content : String)
    (api : ApiOracle) (now : Nat) :
    (sendMessage st content api now).2.take 2 =
      [Event.appendUser content, Event.persist] ∧
    countUser (sendMessage st content api now).2 = 1 ∧
    (⟨"user", content, now⟩ : Turn) ∈
      (sendMessage st content api now).1.messages := by
  obtain ⟨⟨rest, htr, hcu⟩, hmem⟩ :=
    sendMessageTry_spec { st with isLoading := true } content api now
  simp only [sendMessage]
  cases herr : (sendMessageTry { st with isLoading := true } content api
      now).2.2 with
  | none =>
    dsimp only
    refine ⟨?_, ?_, hmem⟩
    · rw [htr]; rfl
    · rw [htr, countUser_append, hcu]
      simp [countUser]
  | some e =>
    dsimp only
    refine ⟨?_, ?_, hmem⟩
    · rw [htr, List.append_assoc]; rfl
    · rw [htr, List.append_assoc, countUser_append, countUser_append, hcu]
      simp [countUser]

/-! ## Claim C10 — totality of result normalization -/

/-- A nonempty row reaching past the column list makes the body loop
throw. -/
theorem renderRowCells_error (cols : List ColumnJs) :
    ∀ (row : List Cell) (idx : Nat), row ≠ [] →
      cols.length < idx + row.length →
      ∃ e, renderRowCells cols idx row = Except.error e := by
  intro row
  induction row with
  | nil => intro idx hne _; exact absurd rfl hne
  | cons c cs ih =>
    intro idx _ hlen
    cases hg : cols[idx]? with
    | none =>
      exact ⟨colUndefMsg, by simp [renderRowCells, renderCell, hg]⟩
    | some col =>
      have hidx : idx < cols.length := by
        by_contra hge
        rw [List.getElem?_eq_none (Nat.le_of_not_lt hge)] at hg
        exact Option.noConfusion hg
      have hcs : cs ≠ [] := by
        intro hnil
        subst hnil
        simp only [List.length_cons, List.length_nil] at hlen
        omega
      obtain ⟨e, he⟩ := ih (idx + 1) hcs (by
        simp only [List.length_cons] at hlen ⊢
        omega)
      refine ⟨e, ?_⟩
      simp [renderRowCells, renderCell, hg, he]

/-- A one-column schema paired with a two-cell row. -/
def qrWide : QueryResultJs :=
  { data_array := some [[Cell.str "Lewis Hamilton", Cell.num 103]],
    schema := some ⟨some [⟨"driver", "STRING"⟩]⟩,
    row_count := some 1, truncated := false }

/-- A nonempty data array with no schema at all. -/
def qrNoSchema : QueryResultJs :=
  { data_array := some [[Cell.str "x"]], schema := none,
    row_count := none, truncated := false }

/-- A COMPLETED payload whose attachment carries `qrWide`. -/
def resWide : GenieResult :=
  { status := some "COMPLETED", error := ErrorField.noField,
    attachments := some [⟨some ⟨some qrWide, none⟩, none⟩] }

/-- C10 counterexample: normalization is not total — a row wider than
the column list, or a missing schema, makes `renderDataTable` (and
hence `displayResult`) throw a TypeError instead of degrading to the
no-data branch. -/
theorem c10_normalization_throws_cx :
    renderDataTable qrWide = Except.error colUndefMsg ∧
    renderDataTable qrNoSchema = Except.error schemaUndefMsg ∧
    displayMessages resWide = Except.error colUndefMsg ∧
    renderDataTable qrWide ≠ Except.ok noDataFoundHtml := by
  refine ⟨by decide, by decide, by decide, by decide⟩

/-- C10 (amended): normalization is total at the attachment level —
missing attachments, a missing query result, and a missing or empty
`data_array` all degrade to the no-data branch — but once `data_array`
is non-empty, a missing column schema or a row wider than the schema
column list throws (surfacing as a failed outcome through the submit
error handler), rather than degrading to the no-data branch. -/
theorem c10_normalization_amended :
    (∀ qr : QueryResultJs, qr.data_array = none →
      renderDataTable qr = Except.ok noDataFoundHtml) ∧
    (∀ qr : QueryResultJs, qr.data_array = some [] →
      renderDataTable qr = Except.ok noDataFoundHtml) ∧
    (∀ r : GenieResult, r.attachments = none ∨ r.attachments = some [] →
      displayMessages r = Except.ok [processedNoDataMsg]) ∧
    (∀ (qr : QueryResultJs) (rows : List (List Cell)),
      qr.data_array = some rows → rows ≠ [] → qr.schema = none →
      renderDataTable qr = Except.error schemaUndefMsg) ∧
    (∀ (qr : QueryResultJs) (cols : List ColumnJs) (row : List Cell)
      (rest : List (List Cell)),
      qr.data_array = some (row :: rest) →
      qr.schema = some ⟨some cols⟩ → cols.length < row.length →
      ∃ e, renderDataTable qr = Except.error e) := by
  refine ⟨?_, ?_, ?_, ?_, ?_⟩
  · intro qr h; simp [renderDataTable, h]
  · intro qr h; simp [renderDataTable, h]
  · intro r h
    rcases h with h | h <;> simp [displayMessages, h]
  · intro qr rows h1 h2 h3
    have : rows.length ≠ 0 := fun hz => h2 (List.length_eq_zero.mp hz)
    simp [renderDataTable, h1, h3, this]
  · intro qr cols row rest h1 h2 hw
    have hne : row ≠ [] := by
      intro hnil
      subst hnil
      simp only [List.length_nil] at hw
      omega
    obtain ⟨e, he⟩ := renderRowCells_error cols row 0 hne (by omega)
    refine ⟨e, ?_⟩
    simp [renderDataTable, h1, h2, renderRows, renderRow, he]

/-- C10 witness: the amended dichotomy at concrete payloads. -/
theorem c10_normalization_amended_witness :
    renderDataTable
      ⟨none, none, none, false⟩ = Except.ok noDataFoundHtml ∧
    displayMessages ⟨some "COMPLETED", ErrorField.noField, none⟩ =
      Except.ok [processedNoDataMsg] ∧
    renderDataTable qrNoSchema = Except.error schemaUndefMsg ∧
    (∃ e, renderDataTable qrWide = Except.error e) :=
  ⟨c10_normalization_amended.1 ⟨none, none, none, false⟩ rfl,
   c10_normalization_amended.2.2.1
     ⟨some "COMPLETED", ErrorField.noField, none⟩ (Or.inl rfl),
   c10_normalization_amended.2.2.2.1 qrNoSchema [[Cell.str "x"]] rfl
     (by decide) rfl,
   c10_normalization_amended.2.2.2.2 qrWide [⟨"driver", "STRING"⟩]
     [Cell.str "Lewis Hamilton", Cell.num 103] [] rfl rfl (by decide)⟩

end Genie
